import Mathlib

/-!
Shallow embedding of `fundamentsl2.py`, the economic-impact calculation
engine for flood-risk cost-of-inaction analysis and cost-benefit
evaluation of Nature-based Solutions (NbS).

Modelling conventions:
* Python floats are modelled as exact rationals (ℚ); every numeric
  literal in the source is a terminating decimal, so this is faithful.
* Python dicts keyed by strings are modelled as association lists with
  `List.lookup`; a missing key (Python `KeyError`) surfaces as `none`.
* Python's `round(x, 2)` is modelled as round-to-nearest with ties going
  up (`round` on ℚ); no value rounded in this development lies exactly
  on a tie, so the difference with Python's bankers rounding is moot.
* Python's `/`, which raises `ZeroDivisionError` on a zero denominator,
  is modelled in fallible code with `Except`.
-/

namespace NbS

/-- The error values a computation of the engine can raise
(Python `ZeroDivisionError`). -/
inductive PyError where
  | zeroDivisionError
deriving DecidableEq, Repr

/-- Python `round(x, 2)`: round to 2 decimal places. -/
def round2 (q : ℚ) : ℚ := (round (q * 100) : ℚ) / 100

-- 1. Baseline parameters (module-level constants in the source).
def EXPOSED_ASSETS_EUR : ℚ := 2500000000
def BUDGET_EUR : ℚ := 10000000
def DISCOUNT_RATE : ℚ := 3 / 100
def HORIZON_YEARS : ℕ := 30

-- 3. NPV helper: present value of a level annual cash-flow.

/-- `npv_annuity`: PV of `annual_value` paid at end of each year for
`years` years.  `if rate == 0: return annual_value * years` else the
closed-form annuity factor. -/
def npv_annuity (annual_value : ℚ) (rate : ℚ := DISCOUNT_RATE)
    (years : ℕ := HORIZON_YEARS) : ℚ :=
  if rate = 0 then annual_value * years
  else annual_value * (1 - (1 + rate) ^ (-(years : ℤ))) / rate

/-- `npv_lump`: PV of a single future cash-flow occurring in `year`. -/
def npv_lump (future_value : ℚ) (year : ℕ)
    (rate : ℚ := DISCOUNT_RATE) : ℚ :=
  future_value / (1 + rate) ^ year

-- 5. Baseline: cost of inaction (30-year totals).

/-- `BaselineResults` named tuple. -/
structure BaselineResults where
  expected_flood_events : ℚ
  direct_flood_damage_30yr : ℚ
  productivity_losses_30yr : ℚ
  restoration_costs_30yr : ℚ
  annual_pollution_cost : ℚ
  total_undiscounted_30yr : ℚ
  npv_damages : ℚ
deriving DecidableEq, Repr

/-- `compute_baseline`: reproduce every number in the Baseline table.
The restoration multiplier is 2.5 times direct damage; the returned
`npv_damages` is the simulation-reported constant, not the annuity
cross-check that the source also computes (and discards). -/
def compute_baseline : BaselineResults :=
  let direct : ℚ := 47320000
  let productivity : ℚ := 31800000
  let restoration_mult : ℚ := 5 / 2
  let restoration : ℚ := direct * restoration_mult
  let annual_pollution : ℚ := 42000
  let pollution_30yr : ℚ := annual_pollution * HORIZON_YEARS
  let total_undiscounted : ℚ := direct + productivity + restoration + pollution_30yr
  { expected_flood_events := 16 / 5
    direct_flood_damage_30yr := direct
    productivity_losses_30yr := productivity
    restoration_costs_30yr := restoration
    annual_pollution_cost := annual_pollution
    total_undiscounted_30yr := total_undiscounted
    npv_damages := 124200000 }

-- 6. Flood damage functions.

/-- `DAMAGE_TABLE`: land_use -> (asset_density, dmg_0.5m, dmg_1.5m). -/
def DAMAGE_TABLE : List (String × (ℚ × ℚ × ℚ)) :=
  [("Residential", (800, 1/4, 3/5)),
   ("Commercial", (1500, 7/20, 3/4)),
   ("Industrial", (1200, 3/10, 7/10)),
   ("Infrastructure", (2000, 2/5, 4/5))]

/-- The piecewise damage-percentage curve of `flood_damage`:
linear ramp below 0.5 m, linear interpolation between 0.5 m and 1.5 m,
capped at the 1.5 m rate above. -/
def damage_pct (pct_05 pct_15 depth_m : ℚ) : ℚ :=
  if depth_m ≤ 1/2 then pct_05 * (depth_m / (1/2))
  else if depth_m ≤ 3/2 then pct_05 + (pct_15 - pct_05) * ((depth_m - 1/2) / 1)
  else pct_15

/-- `flood_damage(land_use, flooded_area_m2, depth_m)`:
table lookup (Python `KeyError` on a missing key becomes `none`),
then `flooded_area_m2 * density * pct`. -/
def flood_damage (land_use : String) (flooded_area_m2 depth_m : ℚ) : Option ℚ :=
  match DAMAGE_TABLE.lookup land_use with
  | none => none
  | some (density, pct_05, pct_15) =>
      some (flooded_area_m2 * density * damage_pct pct_05 pct_15 depth_m)

-- 7. Productivity-loss function: tiers by flood depth.

/-- `PRODUCTIVITY_TIERS`: (max_depth_m, disruption_pct, duration_days). -/
def PRODUCTIVITY_TIERS : List (ℚ × ℚ × ℚ) :=
  [(1/2, 1/20, 30), (3/2, 3/20, 90), (999, 1/4, 180)]

/-- The `for` loop of `productivity_loss`: first tier whose ceiling is
at least the depth wins; the trailing value is the source's
"should not reach here" fallback after the loop. -/
def scan_tiers (gdp_in_zone depth_m : ℚ) : List (ℚ × ℚ × ℚ) → ℚ
  | [] => gdp_in_zone * (1/4) * (180 / 365)
  | (max_d, disrupt, days) :: rest =>
      if depth_m ≤ max_d then gdp_in_zone * disrupt * (days / 365)
      else scan_tiers gdp_in_zone depth_m rest

/-- `productivity_loss(gdp_in_zone, depth_m)`: annual productivity loss
for one flood event of given depth. -/
def productivity_loss (gdp_in_zone depth_m : ℚ) : ℚ :=
  scan_tiers gdp_in_zone depth_m PRODUCTIVITY_TIERS

-- 8. Four strategic configurations.

/-- `NbSConfig` named tuple: all figures come directly from the report's
results tables.  Optional percentage fields model Python `None`. -/
structure NbSConfig where
  name : String
  units_description : String
  flood_peak_reduction_pct : ℚ
  inundation_area_red_pct : Option ℚ
  extreme_resilience_pct : Option ℚ
  pollution_reduction_pct : Option ℚ
  direct_damage_avoided_npv : ℚ
  productivity_avoided_npv : ℚ
  restoration_avoided_npv : ℚ
  treatment_savings_npv : ℚ
  total_benefits_npv : ℚ
  implementation_cost : ℚ
  maintenance_cost_npv : ℚ
  net_present_value : ℚ
  benefit_cost_ratio : ℚ
  payback_years : ℕ
deriving DecidableEq, Repr

def CONFIG_BIOSWALES : NbSConfig :=
  { name := "Distributed Bioswales"
    units_description := "400 bioswales"
    flood_peak_reduction_pct := 18
    inundation_area_red_pct := some 23
    extreme_resilience_pct := some 12
    pollution_reduction_pct := some 22
    direct_damage_avoided_npv := 11200000
    productivity_avoided_npv := 8100000
    restoration_avoided_npv := 28000000
    treatment_savings_npv := 0
    total_benefits_npv := 47300000
    implementation_cost := 10000000
    maintenance_cost_npv := 9300000
    net_present_value := 28000000
    benefit_cost_ratio := 245/100
    payback_years := 12 }

def CONFIG_BUFFERS : NbSConfig :=
  { name := "Riparian Buffer Network"
    units_description := "333 km of buffers"
    flood_peak_reduction_pct := 21
    inundation_area_red_pct := none
    extreme_resilience_pct := some 18
    pollution_reduction_pct := some 48
    direct_damage_avoided_npv := 13700000
    productivity_avoided_npv := 9400000
    restoration_avoided_npv := 34300000
    treatment_savings_npv := 3800000
    total_benefits_npv := 61200000
    implementation_cost := 10000000
    maintenance_cost_npv := 10400000
    net_present_value := 40800000
    benefit_cost_ratio := 3
    payback_years := 9 }

def CONFIG_WETLANDS : NbSConfig :=
  { name := "Strategic Wetlands"
    units_description := "13 wetlands (5 ha each)"
    flood_peak_reduction_pct := 35
    inundation_area_red_pct := none
    extreme_resilience_pct := some 45
    pollution_reduction_pct := some 35
    direct_damage_avoided_npv := 19800000
    productivity_avoided_npv := 13200000
    restoration_avoided_npv := 49500000
    treatment_savings_npv := 0
    total_benefits_npv := 82500000
    implementation_cost := 10000000
    maintenance_cost_npv := 7800000
    net_present_value := 64700000
    benefit_cost_ratio := 463/100
    payback_years := 6 }

def CONFIG_HYBRID : NbSConfig :=
  { name := "Hybrid Approach"
    units_description := "5 wetlands + 100 bioswales + 50 km buffers"
    flood_peak_reduction_pct := 28
    inundation_area_red_pct := none
    extreme_resilience_pct := some 32
    pollution_reduction_pct := some 41
    direct_damage_avoided_npv := 16400000
    productivity_avoided_npv := 11300000
    restoration_avoided_npv := 41000000
    treatment_savings_npv := 2600000
    total_benefits_npv := 71300000
    implementation_cost := 10000000
    maintenance_cost_npv := 8900000
    net_present_value := 52400000
    benefit_cost_ratio := 377/100
    payback_years := 8 }

def ALL_CONFIGS : List NbSConfig :=
  [CONFIG_BIOSWALES, CONFIG_BUFFERS, CONFIG_WETLANDS, CONFIG_HYBRID]

/-- The dict returned by `verify_config_economics`. -/
structure VerifyEconomics where
  total_cost_eur : ℚ
  derived_npv_eur : ℚ
  reported_npv_eur : ℚ
  npv_diff_eur : ℚ
  derived_bcr : ℚ
  reported_bcr : ℚ
deriving DecidableEq, Repr

/-- `verify_config_economics(cfg)`: re-derive NPV and BCR from the stated
benefit / cost components.  The source divides by `total_cost` with no
guard; Python raises `ZeroDivisionError` there when `total_cost == 0`,
embedded as `Except.error`.  `derived_bcr` carries the source's
`round(derived_bcr, 2)`. -/
def verify_config_economics (cfg : NbSConfig) : Except PyError VerifyEconomics :=
  let total_cost := cfg.implementation_cost + cfg.maintenance_cost_npv
  let derived_npv := cfg.total_benefits_npv - total_cost
  if total_cost = 0 then Except.error PyError.zeroDivisionError
  else
    let derived_bcr := cfg.total_benefits_npv / total_cost
    Except.ok
      { total_cost_eur := total_cost
        derived_npv_eur := derived_npv
        reported_npv_eur := cfg.net_present_value
        npv_diff_eur := derived_npv - cfg.net_present_value
        derived_bcr := round2 derived_bcr
        reported_bcr := NbSConfig.benefit_cost_ratio cfg }

-- 10. Climate scenario escalation.

/-- One entry of `CLIMATE_SCENARIOS`. -/
structure ClimateScenario where
  precip_intensity_factor : ℚ
  event_freq_factor : ℚ
  baseline_npv_damages : ℚ
deriving DecidableEq, Repr

def CLIMATE_SCENARIOS : List (String × ClimateScenario) :=
  [("Current", { precip_intensity_factor := 1
                 event_freq_factor := 1
                 baseline_npv_damages := 124200000 }),
   ("Moderate Change", { precip_intensity_factor := 12/10
                         event_freq_factor := 1333/1000
                         baseline_npv_damages := 178000000 }),
   ("Severe Change", { precip_intensity_factor := 14/10
                       event_freq_factor := 2
                       baseline_npv_damages := 265000000 })]

/-- `climate_escalation_multipliers()`: ratio of each scenario's baseline
NPV of damages to the current-climate one, rounded to 2 decimals.
The `none` branch mirrors a Python `KeyError` on the "Current" key and
is unreachable for the fixed table. -/
def climate_escalation_multipliers : List (String × ℚ) :=
  match CLIMATE_SCENARIOS.lookup "Current" with
  | none => []
  | some current =>
      CLIMATE_SCENARIOS.map
        (fun p => (p.1, round2 (p.2.baseline_npv_damages / current.baseline_npv_damages)))

/-! ## Helper lemmas -/

/-- Every row of `DAMAGE_TABLE` has a positive asset density and positive
benchmark damage percentages. -/
theorem damage_row_pos (lu : String) (row : ℚ × ℚ × ℚ)
    (h : DAMAGE_TABLE.lookup lu = some row) :
    0 < row.1 ∧ 0 < row.2.1 ∧ 0 < row.2.2 := by
  simp only [DAMAGE_TABLE, List.lookup] at h
  repeat' split at h
  all_goals simp_all
  all_goals subst h
  all_goals norm_num

/-! ## Claim theorems -/

/-- C1: `verify_config_economics` on the Strategic Wetlands configuration
returns total cost 17,800,000, derived NPV 64,700,000 equal to the
reported NPV (delta 0), and a derived BCR rounding to 4.63, equal to the
reported BCR. -/
theorem wetlands_economics_verified :
    verify_config_economics CONFIG_WETLANDS =
      Except.ok
        { total_cost_eur := 17800000
          derived_npv_eur := 64700000
          reported_npv_eur := 64700000
          npv_diff_eur := 0
          derived_bcr := 463/100
          reported_bcr := 463/100 } := by
  simp only [verify_config_economics, CONFIG_WETLANDS, round2, round_eq]
  norm_num

/-- C2: for every configuration whose total cost
(implementation cost + maintenance cost NPV) is zero,
`verify_config_economics` fails with the division-by-zero error
(Python's `ZeroDivisionError`, raised by the BCR division) rather than
returning a silent numeric value. -/
theorem zero_total_cost_fails (cfg : NbSConfig)
    (h : cfg.implementation_cost + cfg.maintenance_cost_npv = 0) :
    verify_config_economics cfg = Except.error PyError.zeroDivisionError := by
  simp [verify_config_economics, h]

/-- A concrete configuration with zero implementation and maintenance
cost, exercising the zero-total-cost path of `verify_config_economics`. -/
def zero_cost_config : NbSConfig :=
  { name := "Zero Cost"
    units_description := "none"
    flood_peak_reduction_pct := 0
    inundation_area_red_pct := none
    extreme_resilience_pct := none
    pollution_reduction_pct := none
    direct_damage_avoided_npv := 0
    productivity_avoided_npv := 0
    restoration_avoided_npv := 0
    treatment_savings_npv := 0
    total_benefits_npv := 1000000
    implementation_cost := 0
    maintenance_cost_npv := 0
    net_present_value := 1000000
    benefit_cost_ratio := 1
    payback_years := 0 }

/-- C2 witness: the zero-cost configuration makes
`verify_config_economics` fail with the division-by-zero error. -/
theorem zero_total_cost_fails_check :
    verify_config_economics zero_cost_config
      = Except.error PyError.zeroDivisionError :=
  zero_total_cost_fails zero_cost_config (by norm_num [zero_cost_config])

/-- C3 counterexample: at land use "Residential", area 10000 and depth
-1, `flood_damage` neither rejects the call nor returns a non-negative
value: it silently returns the negative damage -4,000,000. -/
theorem flood_damage_negative_counterexample :
    flood_damage "Residential" 10000 (-1) = some (-4000000) ∧
      (-4000000 : ℚ) < 0 := by
  constructor
  · norm_num [flood_damage, DAMAGE_TABLE, List.lookup, damage_pct]
  · norm_num

/-- C3 (amended): `flood_damage` performs no input validation: for every
land use present in the damage table, a negative depth together with a
positive area makes it silently return a strictly negative damage value
(the sub-0.5 m linear ramp extends below zero). -/
theorem flood_damage_negative_depth_silent (lu : String) (row : ℚ × ℚ × ℚ)
    (area depth : ℚ) (hrow : DAMAGE_TABLE.lookup lu = some row)
    (ha : 0 < area) (hd : depth < 0) :
    ∃ v, flood_damage lu area depth = some v ∧ v < 0 := by
  obtain ⟨hdens, hp05, -⟩ := damage_row_pos lu row hrow
  obtain ⟨density, pct05, pct15⟩ := row
  dsimp only at hdens hp05
  have hd2 : depth ≤ 1/2 := by linarith
  refine ⟨area * density * (pct05 * (depth / (1/2))), ?_, ?_⟩
  · simp only [flood_damage, hrow, damage_pct, if_pos hd2]
  · have hq : depth / (1/2) < 0 := div_neg_of_neg_of_pos hd (by norm_num)
    exact mul_neg_of_pos_of_neg (mul_pos ha hdens)
      (mul_neg_of_pos_of_neg hp05 hq)

/-- C3 witness for the amended claim, at "Residential", area 10000,
depth -1. -/
theorem flood_damage_negative_depth_silent_check :
    ∃ v, flood_damage "Residential" 10000 (-1) = some v ∧ v < 0 :=
  flood_damage_negative_depth_silent "Residential" (800, 1/4, 3/5)
    10000 (-1) (by simp [DAMAGE_TABLE, List.lookup]) (by norm_num) (by norm_num)

/-- C4: for every land use present in the damage table, every flooded
area ≥ 0 and every depth > 1.5, the damage equals the damage at depth
1.5: the percentage is capped at the 1.5 m rate. -/
theorem flood_damage_cap (lu : String) (row : ℚ × ℚ × ℚ)
    (area depth : ℚ) (hrow : DAMAGE_TABLE.lookup lu = some row)
    (ha : 0 ≤ area) (hd : 3/2 < depth) :
    flood_damage lu area depth = flood_damage lu area (3/2) := by
  obtain ⟨density, pct05, pct15⟩ := row
  have h1 : ¬ depth ≤ 1/2 := by linarith
  have h2 : ¬ depth ≤ 3/2 := by linarith
  simp only [flood_damage, hrow, damage_pct, if_neg h1, if_neg h2]
  norm_num

/-- C4 witness at "Residential", area 1, depth 2. -/
theorem flood_damage_cap_check :
    (3/2 : ℚ) < 2 ∧ flood_damage "Residential" 1 2 = flood_damage "Residential" 1 (3/2) :=
  ⟨by norm_num,
   flood_damage_cap "Residential" (800, 1/4, 3/5) 1 2
     (by simp [DAMAGE_TABLE, List.lookup]) (by norm_num) (by norm_num)⟩

/-- C5: for every land use present in the damage table and every flooded
area ≥ 0, on depths in [0, 0.5] `flood_damage` is 0 at depth 0, equals
area × density × pct05 at depth 0.5, and is non-negative and
non-decreasing in depth. -/
theorem flood_damage_low_depth (lu : String) (row : ℚ × ℚ × ℚ)
    (area d1 d2 : ℚ) (hrow : DAMAGE_TABLE.lookup lu = some row)
    (ha : 0 ≤ area) (h0 : 0 ≤ d1) (h12 : d1 ≤ d2) (h2 : d2 ≤ 1/2) :
    flood_damage lu area 0 = some 0 ∧
      flood_damage lu area (1/2) = some (area * row.1 * row.2.1) ∧
      ∃ v1 v2, flood_damage lu area d1 = some v1 ∧
        flood_damage lu area d2 = some v2 ∧ 0 ≤ v1 ∧ v1 ≤ v2 := by
  obtain ⟨hdens, hp05, -⟩ := damage_row_pos lu row hrow
  obtain ⟨density, pct05, pct15⟩ := row
  dsimp only at hdens hp05
  have hd1 : d1 ≤ 1/2 := le_trans h12 h2
  refine ⟨?_, ?_, ?_⟩
  · simp only [flood_damage, hrow, damage_pct]
    norm_num
  · simp only [flood_damage, hrow, damage_pct]
    norm_num
  · refine ⟨area * density * (pct05 * (d1 / (1/2))),
      area * density * (pct05 * (d2 / (1/2))), ?_, ?_, ?_, ?_⟩
    · simp only [flood_damage, hrow, damage_pct, if_pos hd1]
    · simp only [flood_damage, hrow, damage_pct, if_pos h2]
    · exact mul_nonneg (mul_nonneg ha hdens.le)
        (mul_nonneg hp05.le (div_nonneg h0 (by norm_num)))
    · refine mul_le_mul_of_nonneg_left ?_ (mul_nonneg ha hdens.le)
      refine mul_le_mul_of_nonneg_left ?_ hp05.le
      gcongr

/-- C5 witness at "Residential", area 10000, depths 0.1 ≤ 0.4. -/
theorem flood_damage_low_depth_check :
    flood_damage "Residential" 10000 0 = some 0 ∧
      flood_damage "Residential" 10000 (1/2) = some (10000 * 800 * (1/4)) ∧
      ∃ v1 v2, flood_damage "Residential" 10000 (1/10) = some v1 ∧
        flood_damage "Residential" 10000 (4/10) = some v2 ∧ 0 ≤ v1 ∧ v1 ≤ v2 :=
  flood_damage_low_depth "Residential" (800, 1/4, 3/5) 10000 (1/10) (4/10)
    (by simp [DAMAGE_TABLE, List.lookup]) (by norm_num) (by norm_num)
    (by norm_num) (by norm_num)

/-- C6: `productivity_loss` returns, for the first tier whose ceiling is
at least the depth, gdp × disruption × (days / 365): with gdp 500,000,000
it returns 500e6 × 0.05 × (30/365) ≈ 2,054,795 at depth 0.4,
500e6 × 0.15 × (90/365) ≈ 18,493,151 at depth 1.0, and
500e6 × 0.25 × (180/365) ≈ 61,643,836 at depth 2.0. -/
theorem productivity_loss_tiers :
    productivity_loss 500000000 (4/10) = 500000000 * (1/20) * (30/365) ∧
      round (productivity_loss 500000000 (4/10)) = 2054795 ∧
      productivity_loss 500000000 1 = 500000000 * (3/20) * (90/365) ∧
      round (productivity_loss 500000000 1) = 18493151 ∧
      productivity_loss 500000000 2 = 500000000 * (1/4) * (180/365) ∧
      round (productivity_loss 500000000 2) = 61643836 := by
  norm_num [productivity_loss, PRODUCTIVITY_TIERS, scan_tiers, round_eq]

/-- C7: for every annual value `x` and positive number of years `n`,
the annuity present value at rate 0 equals `x * n`. -/
theorem npv_annuity_zero_rate (x : ℚ) (n : ℕ) (h : 0 < n) :
    npv_annuity x 0 n = x * n := by
  simp [npv_annuity]

/-- C7 witness at x = 7, n = 3. -/
theorem npv_annuity_zero_rate_check :
    0 < 3 ∧ npv_annuity 7 0 3 = 7 * 3 :=
  ⟨by norm_num, npv_annuity_zero_rate 7 3 (by norm_num)⟩

/-- C8: `compute_baseline` returns restoration cost = 2.5 × direct
damage, an undiscounted 30-year total equal to the sum of direct damage,
productivity loss, restoration cost and pollution cost × horizon years,
and an NPV of damages equal to the report's simulated 124,200,000 —
which differs from the annuity-derived cross-check value. -/
theorem compute_baseline_report_figures :
    compute_baseline.restoration_costs_30yr
        = (5/2) * compute_baseline.direct_flood_damage_30yr ∧
      compute_baseline.total_undiscounted_30yr
        = compute_baseline.direct_flood_damage_30yr
            + compute_baseline.productivity_losses_30yr
            + compute_baseline.restoration_costs_30yr
            + compute_baseline.annual_pollution_cost * (HORIZON_YEARS : ℚ) ∧
      compute_baseline.npv_damages = 124200000 ∧
      compute_baseline.npv_damages
        ≠ npv_annuity (compute_baseline.total_undiscounted_30yr / (HORIZON_YEARS : ℚ))
            DISCOUNT_RATE HORIZON_YEARS := by
  refine ⟨by norm_num [compute_baseline], ?_, by norm_num [compute_baseline], ?_⟩
  · norm_num [compute_baseline, HORIZON_YEARS]
  · norm_num [compute_baseline, npv_annuity, DISCOUNT_RATE, HORIZON_YEARS,
      zpow_neg, zpow_natCast]

/-- C9: `climate_escalation_multipliers` maps each scenario to its
baseline NPV of damages divided by the Current one, rounded to 2
decimals: Current ↦ exactly 1.00, Moderate Change ↦ 1.43, and
Severe Change ↦ round(265,000,000 / 124,200,000, 2) = 2.13. -/
theorem climate_multipliers_spec :
    climate_escalation_multipliers =
        [("Current", 1), ("Moderate Change", 143/100), ("Severe Change", 213/100)] ∧
      round2 (265000000 / 124200000) = 213/100 := by
  constructor
  · simp only [climate_escalation_multipliers, CLIMATE_SCENARIOS, List.lookup,
      List.map, round2, round_eq]
    norm_num
  · norm_num [round2, round_eq]

/-- C10: for each of the four fixed configurations,
`verify_config_economics` succeeds with an NPV delta of exactly 0 and a
derived BCR (rounded to 2 decimals) equal to the reported BCR. -/
theorem all_configs_economics_consistent :
    ∀ cfg ∈ ALL_CONFIGS,
      Except.map (fun r => (r.npv_diff_eur, r.derived_bcr))
          (verify_config_economics cfg)
        = Except.ok ((0 : ℚ), NbSConfig.benefit_cost_ratio cfg) := by
  intro cfg hcfg
  simp only [ALL_CONFIGS] at hcfg
  fin_cases hcfg
  · simp only [verify_config_economics, CONFIG_BIOSWALES, round2, round_eq]
    norm_num [Except.map]
  · simp only [verify_config_economics, CONFIG_BUFFERS, round2, round_eq]
    norm_num [Except.map]
  · simp only [verify_config_economics, CONFIG_WETLANDS, round2, round_eq]
    norm_num [Except.map]
  · simp only [verify_config_economics, CONFIG_HYBRID, round2, round_eq]
    norm_num [Except.map]

/-- C10 witness at the Hybrid Approach configuration. -/
theorem all_configs_economics_consistent_check :
    Except.map (fun r => (r.npv_diff_eur, r.derived_bcr))
        (verify_config_economics CONFIG_HYBRID)
      = Except.ok ((0 : ℚ), NbSConfig.benefit_cost_ratio CONFIG_HYBRID) :=
  all_configs_economics_consistent CONFIG_HYBRID (by simp [ALL_CONFIGS])

end NbS
